import Mathlib

/-!
# Verification of the bedrock-proxy-endpoint model abstraction core

Shallow embedding of the repository's model registry
(`src/api/local-modules/bedrock-wrapper/bedrock-models.js`), the two HTTP
chat-completion handlers (`src/api/server.js` and the unnamed Express app in
`src/unnamed/part_000`), and — modelled from the spec, because
`bedrock-wrapper.js` itself is not part of the source tree — the request
builder, response-path extractor and streaming decoder.
-/

namespace BedrockProxy

/-- A chat role, as carried in the OpenAI-style `messages` array. -/
inductive Role where
  | system
  | user
  | assistant
deriving DecidableEq, Repr

/-- The literal role name string, as it appears in a request's `role` field. -/
def Role.name : Role → String
  | .system => "system"
  | .user => "user"
  | .assistant => "assistant"

/-- One chat message: `{role, content}`. -/
structure ChatMessage where
  role : Role
  content : String
deriving DecidableEq, Repr

/-- A semi-structured JSON-like value: string / integer scalar, object
(ordered field list) or array.  Floating-point scalars never occur in any
value a claim touches, so numbers are carried as integers. -/
inductive JVal where
  | null : JVal
  | str : String → JVal
  | num : Int → JVal
  | bool : Bool → JVal
  | obj : List (String × JVal) → JVal
  | arr : List JVal → JVal

/-- One access step of a `Path`: field-by-name or index-into-sequence. -/
inductive PathStep where
  | field : String → PathStep
  | index : Nat → PathStep
deriving DecidableEq, Repr

/-- A `Path` is an ordered sequence of access steps (spec §3),
e.g. `content[0].text` is `[field "content", index 0, field "text"]`. -/
abbrev Path := List PathStep

/-- The extraction failure kinds of spec §4.3. -/
inductive ExtractError where
  | pathNotFound
  | indexOutOfRange
  | typeMismatch
deriving DecidableEq, Repr

/-- Modelled from the spec: the response-path extractor lives in
`bedrock-wrapper.js`, which is not under `src/`.  Spec §4.3: step through
the value applying each access step; a missing field is `PathNotFound`, an
invalid sequence index is `IndexOutOfRange`, and a step that expects a
container but finds a scalar is `TypeMismatch`. -/
def getVal : JVal → Path → Except ExtractError JVal
  | v, [] => .ok v
  | .obj fields, .field k :: rest =>
      match fields.lookup k with
      | some v => getVal v rest
      | none => .error .pathNotFound
  | .arr xs, .index i :: rest =>
      match xs.get? i with
      | some v => getVal v rest
      | none => .error .indexOutOfRange
  | _, _ :: _ => .error .typeMismatch

/-- Modelled from the spec: `extract(Path, value) -> string | ExtractError`
(spec §4.3); a successful walk that does not end on a string scalar is a
type mismatch. -/
def extract (p : Path) (v : JVal) : Except ExtractError String :=
  match getVal v p with
  | .ok (.str s) => .ok s
  | .ok _ => .error .typeMismatch
  | .error e => .error e

/-- Split a character list on a separator character; `[]` yields `[[]]`,
matching the usual string-split convention. -/
def splitCh (sep : Char) : List Char → List (List Char)
  | [] => [[]]
  | c :: rest =>
      let r := splitCh sep rest
      if c = sep then [] :: r
      else
        match r with
        | [] => [[c]]
        | h :: t => (c :: h) :: t

/-- The numeric value of a decimal digit string. -/
def natOfDigits (l : List Char) : Nat :=
  l.foldl (fun n c => n * 10 + (c.toNat - 48)) 0

/-- Modelled from the spec: the registry stores selectors as dotted/indexed
strings (`"content[0].text"`, `"generation"`); the wrapper parses them into
access-step sequences.  One dotted segment `name[i][j]` contributes a field
step for `name` followed by one index step per bracket. -/
def parseSeg (seg : List Char) : List PathStep :=
  match splitCh '[' seg with
  | [] => []
  | name :: brackets =>
      (if name = [] then [] else [PathStep.field (String.mk name)]) ++
      brackets.map (fun b => PathStep.index (natOfDigits ((splitCh ']' b).headD [])))

/-- Modelled from the spec: parse a dotted/indexed selector string into a
`Path` (spec §3's `Path` examples fix the syntax). -/
def parsePath (s : String) : Path :=
  (splitCh '.' s.data).flatMap parseSeg

/-- One entry of `bedrock_models` in
`src/api/local-modules/bedrock-wrapper/bedrock-models.js`.  The JS entries
are plain objects that simply omit the keys that do not apply to them
(`system_as_separate_field` and `special_request_schema` appear only on the
`messages_api` Claude entries; the prompt-template keys appear only on the
`messages_api: false` entries; `response_nonchunk_element` appears only on
the Claude entries).  An omitted boolean key reads as `undefined` (falsy) in
JS, so such keys default to `false`, omitted string keys to `""`, and the
genuinely optional selector `response_nonchunk_element` is an `Option`. -/
structure ModelDescriptor where
  modelName : String
  modelId : String
  messages_api : Bool
  system_as_separate_field : Bool := false
  display_role_names : Bool
  max_tokens_param_name : String
  max_supported_response_tokens : Nat
  response_chunk_element : String
  response_nonchunk_element : Option String := none
  special_request_schema : List (String × JVal) := []
  bos_text : String := ""
  eom_text : String := ""
  role_system_message_prefix : String := ""
  role_system_message_suffix : String := ""
  role_system_prefix : String := ""
  role_system_suffix : String := ""
  role_user_message_prefix : String := ""
  role_user_message_suffix : String := ""
  role_user_prefix : String := ""
  role_user_suffix : String := ""
  role_assistant_message_prefix : String := ""
  role_assistant_message_suffix : String := ""
  role_assistant_prefix : String := ""
  role_assistant_suffix : String := ""

/-- The model registry `bedrock_models` of `bedrock-models.js`, entry for
entry and field for field; defaults stand in for keys the JS object omits. -/
def bedrock_models : List ModelDescriptor := [
  { -- Claude 3.7 Sonnet v1
    modelName := "Claude-3-7-Sonnet",
    modelId := "arn:aws:bedrock:us-east-1:009160038668:inference-profile/us.anthropic.claude-sonnet-4-20250514-v1:0",
    messages_api := true,
    system_as_separate_field := true,
    display_role_names := true,
    max_tokens_param_name := "max_tokens",
    max_supported_response_tokens := 8192,
    response_chunk_element := "delta.text",
    response_nonchunk_element := some "content[0].text",
    special_request_schema := [("anthropic_version", JVal.str "bedrock-2023-05-31")] },
  { -- Claude 3.5 Sonnet v2
    modelName := "Claude-3-5-Sonnet-v2",
    modelId := "arn:aws:bedrock:us-east-1:009160038668:inference-profile/us.anthropic.claude-3-5-sonnet-20241022-v2:0",
    messages_api := true,
    system_as_separate_field := true,
    display_role_names := true,
    max_tokens_param_name := "max_tokens",
    max_supported_response_tokens := 8192,
    response_chunk_element := "delta.text",
    response_nonchunk_element := some "content[0].text",
    special_request_schema := [("anthropic_version", JVal.str "bedrock-2023-05-31")] },
  { -- Claude 3.5 Sonnet
    modelName := "Claude-3-5-Sonnet",
    modelId := "anthropic.claude-3-5-sonnet-20240620-v1:0",
    messages_api := true,
    system_as_separate_field := true,
    display_role_names := true,
    max_tokens_param_name := "max_tokens",
    max_supported_response_tokens := 8192,
    response_chunk_element := "delta.text",
    response_nonchunk_element := some "content[0].text",
    special_request_schema := [("anthropic_version", JVal.str "bedrock-2023-05-31")] },
  { -- Claude 3 Haiku
    modelName := "Claude-3-Haiku",
    modelId := "anthropic.claude-3-haiku-20240307-v1:0",
    messages_api := true,
    system_as_separate_field := true,
    display_role_names := true,
    max_tokens_param_name := "max_tokens",
    max_supported_response_tokens := 8192,
    response_chunk_element := "delta.text",
    response_nonchunk_element := some "content[0].text",
    special_request_schema := [("anthropic_version", JVal.str "bedrock-2023-05-31")] },
  { -- Claude 3.5 Haiku
    modelName := "Claude-3-5-Haiku",
    modelId := "arn:aws:bedrock:us-east-1:009160038668:inference-profile/us.anthropic.claude-3-5-haiku-20241022-v1:0",
    messages_api := true,
    system_as_separate_field := true,
    display_role_names := true,
    max_tokens_param_name := "max_tokens",
    max_supported_response_tokens := 8192,
    response_chunk_element := "delta.text",
    response_nonchunk_element := some "content[0].text",
    special_request_schema := [("anthropic_version", JVal.str "bedrock-2023-05-31")] },
  { -- Llama 3.2 1b
    modelName := "Llama-3-2-1b",
    modelId := "us.meta.llama3-2-1b-instruct-v1:0",
    messages_api := false,
    bos_text := "<|begin_of_text|>",
    role_system_message_prefix := "",
    role_system_message_suffix := "",
    role_system_prefix := "<|start_header_id|>",
    role_system_suffix := "<|end_header_id|>",
    role_user_message_prefix := "",
    role_user_message_suffix := "",
    role_user_prefix := "<|start_header_id|>",
    role_user_suffix := "<|end_header_id|>",
    role_assistant_message_prefix := "",
    role_assistant_message_suffix := "",
    role_assistant_prefix := "<|start_header_id|>",
    role_assistant_suffix := "<|end_header_id|>",
    eom_text := "<|eot_id|>",
    display_role_names := true,
    max_tokens_param_name := "max_gen_len",
    max_supported_response_tokens := 2048,
    response_chunk_element := "generation" },
  { -- Llama 3.2 3b
    modelName := "Llama-3-2-3b",
    modelId := "us.meta.llama3-2-3b-instruct-v1:0",
    messages_api := false,
    bos_text := "<|begin_of_text|>",
    role_system_message_prefix := "",
    role_system_message_suffix := "",
    role_system_prefix := "<|start_header_id|>",
    role_system_suffix := "<|end_header_id|>",
    role_user_message_prefix := "",
    role_user_message_suffix := "",
    role_user_prefix := "<|start_header_id|>",
    role_user_suffix := "<|end_header_id|>",
    role_assistant_message_prefix := "",
    role_assistant_message_suffix := "",
    role_assistant_prefix := "<|start_header_id|>",
    role_assistant_suffix := "<|end_header_id|>",
    eom_text := "<|eot_id|>",
    display_role_names := true,
    max_tokens_param_name := "max_gen_len",
    max_supported_response_tokens := 2048,
    response_chunk_element := "generation" },
  { -- Llama 3.2 11b
    modelName := "Llama-3-2-11b",
    modelId := "us.meta.llama3-2-11b-instruct-v1:0",
    messages_api := false,
    bos_text := "<|begin_of_text|>",
    role_system_message_prefix := "",
    role_system_message_suffix := "",
    role_system_prefix := "<|start_header_id|>",
    role_system_suffix := "<|end_header_id|>",
    role_user_message_prefix := "",
    role_user_message_suffix := "",
    role_user_prefix := "<|start_header_id|>",
    role_user_suffix := "<|end_header_id|>",
    role_assistant_message_prefix := "",
    role_assistant_message_suffix := "",
    role_assistant_prefix := "<|start_header_id|>",
    role_assistant_suffix := "<|end_header_id|>",
    eom_text := "<|eot_id|>",
    display_role_names := true,
    max_tokens_param_name := "max_gen_len",
    max_supported_response_tokens := 2048,
    response_chunk_element := "generation" },
  { -- Llama 3.2 90b
    modelName := "Llama-3-2-90b",
    modelId := "us.meta.llama3-2-90b-instruct-v1:0",
    messages_api := false,
    bos_text := "<|begin_of_text|>",
    role_system_message_prefix := "",
    role_system_message_suffix := "",
    role_system_prefix := "<|start_header_id|>",
    role_system_suffix := "<|end_header_id|>",
    role_user_message_prefix := "",
    role_user_message_suffix := "",
    role_user_prefix := "<|start_header_id|>",
    role_user_suffix := "<|end_header_id|>",
    role_assistant_message_prefix := "",
    role_assistant_message_suffix := "",
    role_assistant_prefix := "<|start_header_id|>",
    role_assistant_suffix := "<|end_header_id|>",
    eom_text := "<|eot_id|>",
    display_role_names := true,
    max_tokens_param_name := "max_gen_len",
    max_supported_response_tokens := 2048,
    response_chunk_element := "generation" },
  { -- Llama 3.1 8b
    modelName := "Llama-3-1-8b",
    modelId := "meta.llama3-1-8b-instruct-v1:0",
    messages_api := false,
    bos_text := "<|begin_of_text|>",
    role_system_message_prefix := "",
    role_system_message_suffix := "",
    role_system_prefix := "<|start_header_id|>",
    role_system_suffix := "<|end_header_id|>",
    role_user_message_prefix := "",
    role_user_message_suffix := "",
    role_user_prefix := "<|start_header_id|>",
    role_user_suffix := "<|end_header_id|>",
    role_assistant_message_prefix := "",
    role_assistant_message_suffix := "",
    role_assistant_prefix := "<|start_header_id|>",
    role_assistant_suffix := "<|end_header_id|>",
    eom_text := "<|eot_id|>",
    display_role_names := true,
    max_tokens_param_name := "max_gen_len",
    max_supported_response_tokens := 2048,
    response_chunk_element := "generation" },
  { -- Llama 3.1 70b
    modelName := "Llama-3-1-70b",
    modelId := "meta.llama3-1-70b-instruct-v1:0",
    messages_api := false,
    bos_text := "<|begin_of_text|>",
    role_system_message_prefix := "",
    role_system_message_suffix := "",
    role_system_prefix := "<|start_header_id|>",
    role_system_suffix := "<|end_header_id|>",
    role_user_message_prefix := "",
    role_user_message_suffix := "",
    role_user_prefix := "<|start_header_id|>",
    role_user_suffix := "<|end_header_id|>",
    role_assistant_message_prefix := "",
    role_assistant_message_suffix := "",
    role_assistant_prefix := "<|start_header_id|>",
    role_assistant_suffix := "<|end_header_id|>",
    eom_text := "<|eot_id|>",
    display_role_names := true,
    max_tokens_param_name := "max_gen_len",
    max_supported_response_tokens := 2048,
    response_chunk_element := "generation" },
  { -- Llama 3.1 405b
    modelName := "Llama-3-1-405b",
    modelId := "meta.llama3-1-405b-instruct-v1:0",
    messages_api := false,
    bos_text := "<|begin_of_text|>",
    role_system_message_prefix := "",
    role_system_message_suffix := "",
    role_system_prefix := "<|start_header_id|>",
    role_system_suffix := "<|end_header_id|>",
    role_user_message_prefix := "",
    role_user_message_suffix := "",
    role_user_prefix := "<|start_header_id|>",
    role_user_suffix := "<|end_header_id|>",
    role_assistant_message_prefix := "",
    role_assistant_message_suffix := "",
    role_assistant_prefix := "<|start_header_id|>",
    role_assistant_suffix := "<|end_header_id|>",
    eom_text := "<|eot_id|>",
    display_role_names := true,
    max_tokens_param_name := "max_gen_len",
    max_supported_response_tokens := 2048,
    response_chunk_element := "generation" },
  { -- Llama 3 8b
    modelName := "Llama-3-8b",
    modelId := "meta.llama3-8b-instruct-v1:0",
    messages_api := false,
    bos_text := "<|begin_of_text|>",
    role_system_message_prefix := "",
    role_system_message_suffix := "",
    role_system_prefix := "<|start_header_id|>",
    role_system_suffix := "<|end_header_id|>",
    role_user_message_prefix := "",
    role_user_message_suffix := "",
    role_user_prefix := "<|start_header_id|>",
    role_user_suffix := "<|end_header_id|>",
    role_assistant_message_prefix := "",
    role_assistant_message_suffix := "",
    role_assistant_prefix := "<|start_header_id|>",
    role_assistant_suffix := "<|end_header_id|>",
    eom_text := "<|eot_id|>",
    display_role_names := true,
    max_tokens_param_name := "max_gen_len",
    max_supported_response_tokens := 2048,
    response_chunk_element := "generation" },
  { -- Llama 3 70b
    modelName := "Llama-3-70b",
    modelId := "meta.llama3-70b-instruct-v1:0",
    messages_api := false,
    bos_text := "<|begin_of_text|>",
    role_system_message_prefix := "",
    role_system_message_suffix := "",
    role_system_prefix := "<|start_header_id|>",
    role_system_suffix := "<|end_header_id|>",
    role_user_message_prefix := "",
    role_user_message_suffix := "",
    role_user_prefix := "<|start_header_id|>",
    role_user_suffix := "<|end_header_id|>",
    role_assistant_message_prefix := "",
    role_assistant_message_suffix := "",
    role_assistant_prefix := "<|start_header_id|>",
    role_assistant_suffix := "<|end_header_id|>",
    eom_text := "<|eot_id|>",
    display_role_names := true,
    max_tokens_param_name := "max_gen_len",
    max_supported_response_tokens := 2048,
    response_chunk_element := "generation" },
  { -- Mistral-7b
    modelName := "Mistral-7b",
    modelId := "mistral.mistral-7b-instruct-v0:2",
    messages_api := false,
    bos_text := "<s>",
    role_system_message_prefix := "",
    role_system_message_suffix := "",
    role_system_prefix := "",
    role_system_suffix := "",
    role_user_message_prefix := "[INST]",
    role_user_message_suffix := "[/INST]",
    role_user_prefix := "",
    role_user_suffix := "",
    role_assistant_message_prefix := "",
    role_assistant_message_suffix := "",
    role_assistant_prefix := "",
    role_assistant_suffix := "",
    eom_text := "</s>",
    display_role_names := false,
    max_tokens_param_name := "max_tokens",
    max_supported_response_tokens := 8192,
    response_chunk_element := "outputs[0].text" },
  { -- Mixtral-8x7b
    modelName := "Mixtral-8x7b",
    modelId := "mistral.mixtral-8x7b-instruct-v0:1",
    messages_api := false,
    bos_text := "<s>",
    role_system_message_prefix := "",
    role_system_message_suffix := "",
    role_system_prefix := "",
    role_system_suffix := "",
    role_user_message_prefix := "[INST]",
    role_user_message_suffix := "[/INST]",
    role_user_prefix := "",
    role_user_suffix := "",
    role_assistant_message_prefix := "",
    role_assistant_message_suffix := "",
    role_assistant_prefix := "",
    role_assistant_suffix := "",
    eom_text := "</s>",
    display_role_names := false,
    max_tokens_param_name := "max_tokens",
    max_supported_response_tokens := 4096,
    response_chunk_element := "outputs[0].text" },
  { -- Mistral Large
    modelName := "Mistral-Large",
    modelId := "mistral.mistral-large-2402-v1:0",
    messages_api := false,
    bos_text := "<s>",
    role_system_message_prefix := "",
    role_system_message_suffix := "",
    role_system_prefix := "",
    role_system_suffix := "",
    role_user_message_prefix := "[INST]",
    role_user_message_suffix := "[/INST]",
    role_user_prefix := "",
    role_user_suffix := "",
    role_assistant_message_prefix := "",
    role_assistant_message_suffix := "",
    role_assistant_prefix := "",
    role_assistant_suffix := "",
    eom_text := "</s>",
    display_role_names := false,
    max_tokens_param_name := "max_tokens",
    max_supported_response_tokens := 8192,
    response_chunk_element := "outputs[0].text" }
  ]

/-- The role-label marker opening a role header, per role (spec §3's
`rolePrefix` of each role's quadruple, stored in the registry's
`role_*_prefix` keys). -/
def ModelDescriptor.rolePre (d : ModelDescriptor) : Role → String
  | .system => d.role_system_prefix
  | .user => d.role_user_prefix
  | .assistant => d.role_assistant_prefix

/-- The role-label marker closing a role header, per role. -/
def ModelDescriptor.roleSuf (d : ModelDescriptor) : Role → String
  | .system => d.role_system_suffix
  | .user => d.role_user_suffix
  | .assistant => d.role_assistant_suffix

/-- The marker preceding a message body, per role (spec §3's
`messagePrefix`). -/
def ModelDescriptor.msgPre (d : ModelDescriptor) : Role → String
  | .system => d.role_system_message_prefix
  | .user => d.role_user_message_prefix
  | .assistant => d.role_assistant_message_prefix

/-- The marker following a message body, per role. -/
def ModelDescriptor.msgSuf (d : ModelDescriptor) : Role → String
  | .system => d.role_system_message_suffix
  | .user => d.role_user_message_suffix
  | .assistant => d.role_assistant_message_suffix

/-- Modelled from the spec (§4.2 flattened-prompt mode; the builder itself
lives in `bedrock-wrapper.js`, which is not under `src/`): the text emitted
for one message — if `display_role_names`, the role's `rolePrefix` +
literal role name + `roleSuffix`; then the role's `messagePrefix` + message
content + `messageSuffix`. -/
def renderMessage (d : ModelDescriptor) (m : ChatMessage) : String :=
  (if d.display_role_names then d.rolePre m.role ++ m.role.name ++ d.roleSuf m.role else "")
    ++ d.msgPre m.role ++ m.content ++ d.msgSuf m.role

/-- Modelled from the spec: the flattening loop over the message sequence,
carrying a first-message flag so that `bos_text` is emitted only before the
very first message and nothing is appended after the last one (§4.2). -/
def flattenLoop (d : ModelDescriptor) : Bool → List ChatMessage → String
  | _, [] => ""
  | isFirst, m :: rest =>
      (if isFirst then d.bos_text else "") ++ renderMessage d m ++ flattenLoop d false rest

/-- Modelled from the spec: build the single flattened prompt string for a
`messages_api: false` descriptor. -/
def flattenPrompt (d : ModelDescriptor) (ms : List ChatMessage) : String :=
  flattenLoop d true ms

/-- Concatenation of a list of strings in order. -/
def concatStrings (l : List String) : String := l.foldr (fun a b => a ++ b) ""

/-- The flattened prompt exactly as claim C2 and spec §8 word it: the
`beginOfSequenceMarker` once, then for each message in input order the
role header (iff `display_role_names`) followed by the role's message
markers around the content, with nothing after the last message. -/
def specFlattened (d : ModelDescriptor) (ms : List ChatMessage) : String :=
  d.bos_text ++ concatStrings (ms.map (fun m =>
    (if d.display_role_names then d.rolePre m.role ++ m.role.name ++ d.roleSuf m.role else "")
      ++ d.msgPre m.role ++ m.content ++ d.msgSuf m.role))

/-- A chat message encoded as the JSON object `{role, content}` placed in a
structured-mode request's message array. -/
def encodeMessage (m : ChatMessage) : JVal :=
  JVal.obj [("role", JVal.str m.role.name), ("content", JVal.str m.content)]

/-- Modelled from the spec (§4.2 structured mode): when the descriptor sets
`system_as_separate_field`, the first system message (if present) is placed
under a distinct top-level `system` key. -/
def systemFields (d : ModelDescriptor) (ms : List ChatMessage) : List (String × JVal) :=
  if d.system_as_separate_field then
    match ms.find? (fun m => m.role == Role.system) with
    | some m => [("system", JVal.str m.content)]
    | none => []
  else []

/-- Modelled from the spec (§4.2 structured mode): the message array of the
built request; a system message extracted to the separate field is not
duplicated in it. -/
def bodyMessages (d : ModelDescriptor) (ms : List ChatMessage) : List ChatMessage :=
  if d.system_as_separate_field then ms.eraseP (fun m => m.role == Role.system) else ms

/-- Modelled from the spec: `buildRequest` lives in `bedrock-wrapper.js`,
which is not under `src/`.  Spec §4.2: structured mode emits the message
array plus `special_request_schema` merged at top level and the extracted
system field; flattened mode emits the single prompt string.  Either way the
generation limit goes under the descriptor's `max_tokens_param_name`,
clamped to `min(requested, max_supported_response_tokens)`.  The float
parameters `temperature` and `top_p` appear in no claim and are omitted. -/
def buildRequest (d : ModelDescriptor) (ms : List ChatMessage) (maxTokens : Nat) :
    List (String × JVal) :=
  if d.messages_api then
    d.special_request_schema ++ systemFields d ms ++
      [("messages", JVal.arr ((bodyMessages d ms).map encodeMessage)),
       (d.max_tokens_param_name,
        JVal.num ((min maxTokens d.max_supported_response_tokens : Nat) : Int))]
  else
    [("prompt", JVal.str (flattenPrompt d ms)),
     (d.max_tokens_param_name,
      JVal.num ((min maxTokens d.max_supported_response_tokens : Nat) : Int))]

/-- Modelled from the spec (§4.4): the streaming decode loop over raw
events: on successful extraction emit one chunk, on `ExtractError` skip the
event silently and continue. -/
def decodeStream (p : Path) : List JVal → List String
  | [] => []
  | e :: rest =>
      match extract p e with
      | .ok s => s :: decodeStream p rest
      | .error _ => decodeStream p rest

/-- The three raw streaming events of the spec §8 scenario. -/
def scenarioEvents : List JVal :=
  [JVal.obj [("generation", JVal.str "Hel")],
   JVal.obj [("generation", JVal.str "lo")],
   JVal.obj [("meta", JVal.str "done")]]

/-! ## The HTTP chat-completion handlers

`src/api/server.js` and `src/unnamed/part_000` each define a
`POST /v1/chat/completions` Express handler.  A request body is modelled
with `Option` fields so that JS destructuring defaults (`messages = []`,
`model = 'claude-3-5-sonnet'` or `'Llama-3-8b'`, `stream = false` or
`true`) are explicit; `temperature` and `top_p` are floats that no claim
mentions and are left out. -/

/-- The fields of an incoming chat-completion request body that the claims
touch; `none` models an absent JSON key. -/
structure ChatRequestBody where
  messages : Option (List ChatMessage)
  model : Option String
  max_tokens : Option Nat
  stream : Option Bool
deriving DecidableEq, Repr

/-- AWS credentials as produced by `extractAWSCreds` (`utils.js`, a file
that is not under `src/`; the handlers only verify its output fields are
non-empty). -/
structure AwsCreds where
  region : String
  accessKeyId : String
  secretAccessKey : String
deriving DecidableEq, Repr

/-- The parameter object the handlers pass to `bedrockWrapper`
(`bedrockParams` in server.js, `openaiChatCompletionsCreateObject` in
part_000). -/
structure BedrockParams where
  messages : List ChatMessage
  model : String
  max_tokens : Nat
  stream : Bool
deriving DecidableEq, Repr

/-- Outcome of a handler's validation phase: an early error response sent
without ever invoking `bedrockWrapper`, or acceptance with the parameters
the wrapper is then invoked with. -/
inductive Validation where
  | reject (status : Nat) (message : String)
  | accept (params : BedrockParams)
deriving DecidableEq, Repr

/-- `true` exactly when validation accepted, i.e. when the handler goes on
to invoke the backend wrapper. -/
def Validation.invokesWrapper : Validation → Bool
  | .reject _ _ => false
  | .accept _ => true

/-- The default model name substituted by `src/api/server.js` (line 106)
when the request omits `model`. -/
def serverModel (req : ChatRequestBody) : String :=
  req.model.getD "claude-3-5-sonnet"

/-- ASCII lower-casing of one character, used to state that two model names
differ only in letter case. -/
def lowerChar (c : Char) : Char :=
  if 'A' ≤ c ∧ c ≤ 'Z' then Char.ofNat (c.toNat + 32) else c

/-- ASCII lower-casing of a string. -/
def lowerString (s : String) : String := String.mk (s.data.map lowerChar)

/-- The validation phase of the `/v1/chat/completions` handler of
`src/api/server.js` (lines 104-165): empty-messages check (400), then
bearer-token presence (401), then `extractAWSCreds` (401 with its message).
`authToken` models `req.headers.authorization` with the `Bearer ` text
already stripped; `extractCreds` abstracts `extractAWSCreds` from the
absent `utils.js`. -/
def serverValidate (req : ChatRequestBody) (authToken : Option String)
    (extractCreds : String → Except String AwsCreds) : Validation :=
  let messages := req.messages.getD []
  let max_tokens := req.max_tokens.getD 800
  let stream := req.stream.getD false
  if messages.length = 0 then
    Validation.reject 400 "Messages array is empty"
  else
    match authToken with
    | none => Validation.reject 401 "No authorization token provided"
    | some tok =>
        match extractCreds tok with
        | .error msg => Validation.reject 401 msg
        | .ok _ =>
            Validation.accept
              { messages := messages, model := serverModel req,
                max_tokens := max_tokens, stream := stream }

/-- The validation phase of the handler in `src/unnamed/part_000`
(lines 96-126): empty-messages check (400 `'Messages array is empty'`),
`extractAWSCreds` on the raw bearer token or `null` (401 with its message),
then the non-empty check on the key id and secret (401 `'Unauthorized'`). -/
def part000Validate (req : ChatRequestBody) (authToken : Option String)
    (extractCreds : Option String → Except String AwsCreds) : Validation :=
  let messages := req.messages.getD []
  let model := req.model.getD "Llama-3-8b"
  let max_tokens := req.max_tokens.getD 800
  let stream := req.stream.getD true
  if messages.length = 0 then
    Validation.reject 400 "Messages array is empty"
  else
    match extractCreds authToken with
    | .error msg => Validation.reject 401 msg
    | .ok creds =>
        if creds.accessKeyId = "" ∨ creds.secretAccessKey = "" then
          Validation.reject 401 "Unauthorized"
        else
          Validation.accept
            { messages := messages, model := model,
              max_tokens := max_tokens, stream := stream }

/-- One chat-completion chunk object as written by the streaming loop of
`src/api/server.js` (lines 182-195).  The time-derived `id` and `created`
fields are abstracted away (no claim mentions them); `finish_reason: null`
is carried as `JVal.null`. -/
def serverStreamFrame (model : String) (chunk : String) : JVal :=
  JVal.obj
    [("object", JVal.str "chat.completion.chunk"),
     ("model", JVal.str model),
     ("choices", JVal.arr
       [JVal.obj
         [("index", JVal.num 0),
          ("delta", JVal.obj
            [("role", JVal.str "assistant"), ("content", JVal.str chunk)]),
          ("finish_reason", JVal.null)]])]

/-- The sequence of SSE data frames the streaming branch of
`src/api/server.js` writes for the chunks yielded by `bedrockWrapper`, in
yield order (one `res.write` per chunk, lines 181-199). -/
def serverStreamWrites (model : String) (chunks : List String) : List JVal :=
  chunks.map (serverStreamFrame model)

/-- `completeResponse` as accumulated by the non-streaming branch of
`src/api/server.js` (lines 217-222): `completeResponse += data` over the
wrapper's yielded values, starting from `''`. -/
def serverCompleteResponse (chunks : List String) : String :=
  chunks.foldl (fun acc data => acc ++ data) ""

/-- The JSON body the non-streaming branch of `src/api/server.js` responds
with (lines 231-250), with the time-derived `id`, `created` and
`system_fingerprint` fields abstracted away. -/
def serverNonStreamBody (model : String) (messages : List ChatMessage)
    (chunks : List String) : JVal :=
  JVal.obj
    [("object", JVal.str "chat.completion"),
     ("model", JVal.str model),
     ("choices", JVal.arr
       [JVal.obj
         [("index", JVal.num 0),
          ("message", JVal.obj
            [("role", JVal.str "assistant"),
             ("content", JVal.str (serverCompleteResponse chunks))]),
          ("finish_reason", JVal.str "stop")]]),
     ("usage", JVal.obj
       [("prompt_tokens", JVal.num ((messages.map (fun m => (m.content.length : Int))).sum)),
        ("completion_tokens", JVal.num (serverCompleteResponse chunks).length),
        ("total_tokens", JVal.num ((messages.map (fun m => (m.content.length : Int))).sum
          + (serverCompleteResponse chunks).length))])]

/-- The path of the incremental content inside a streamed chunk object:
`choices[0].delta.content`. -/
def deltaContentPath : Path :=
  [PathStep.field "choices", PathStep.index 0, PathStep.field "delta",
   PathStep.field "content"]

/-- The path of the reply inside the non-streaming response body:
`choices[0].message.content`. -/
def messageContentPath : Path :=
  [PathStep.field "choices", PathStep.index 0, PathStep.field "message",
   PathStep.field "content"]

/-! ## The part_000 handler as a response state machine

For claims about what reaches the client on a failure mid-stream, the
handler of `src/unnamed/part_000` is modelled as a function from the
backend wrapper's run (its yielded chunks, and whether it then finished or
threw) to the final state of the Express `res` object. -/

/-- One body write of the part_000 handler, abstracting the serialized
text: an SSE data frame carrying one chunk (line 171), the single
non-streaming JSON body (line 189), or an error text sent by
`res.status(...).send(...)`. -/
inductive WriteEvent where
  | sseFrame (chunk : String)
  | jsonBody (content : String)
  | errorText (msg : String)
deriving DecidableEq, Repr

/-- `true` on the writes produced by the catch block's
`res.status(429/500).send(...)` branches. -/
def WriteEvent.isError : WriteEvent → Bool
  | .errorText _ => true
  | _ => false

/-- The observable state of the Express/Node response object: the status
code of the sent (or to-be-sent) head, whether headers have been flushed,
the body writes in order, and whether the response was ended. -/
structure ResState where
  statusCode : Nat
  headersSent : Bool
  body : List WriteEvent
  ended : Bool
deriving DecidableEq, Repr

/-- A fresh response: Node's default status 200, nothing sent. -/
def ResState.init : ResState :=
  { statusCode := 200, headersSent := false, body := [], ended := false }

/-- `res.writeHead(status, ...)`: sets the status line and flushes the
headers. -/
def ResState.writeHead (r : ResState) (status : Nat) : ResState :=
  { r with statusCode := status, headersSent := true }

/-- `res.write(...)`: appends one body write (flushing headers if not yet
sent). -/
def ResState.write (r : ResState) (e : WriteEvent) : ResState :=
  { r with headersSent := true, body := r.body ++ [e] }

/-- `res.end()`. -/
def ResState.endResponse (r : ResState) : ResState :=
  { r with ended := true }

/-- `res.status(s).send(msg)`: status line, one body write, end. -/
def ResState.statusSend (r : ResState) (status : Nat) (msg : String) : ResState :=
  { r with statusCode := status, headersSent := true,
           body := r.body ++ [WriteEvent.errorText msg], ended := true }

/-- One run of `bedrockWrapper` as observed by the consuming `for await`
loop: either it yields `chunks` and finishes, or it yields `chunks` and
then throws an error whose `name` is `errName`. -/
inductive WrapperRun where
  | ok (chunks : List String)
  | failAfter (chunks : List String) (errName : String)
deriving DecidableEq, Repr

/-- The catch block of `src/unnamed/part_000` (lines 192-204): a
`ThrottlingException` leads to `res.status(429).send(...)` and anything
else to `res.status(500).send(...)`, each guarded by `!res.headersSent`. -/
def part000Catch (errName : String) (r : ResState) : ResState :=
  if errName = "ThrottlingException" then
    if !r.headersSent then
      r.statusSend 429 "Too many requests, please wait before trying again."
    else r
  else
    if !r.headersSent then
      r.statusSend 500 "Server error during request processing."
    else r

/-- The post-validation segment of the part_000 handler (lines 148-204):
`res.writeHead(200, ...)` first, then the streamed or unstreamed consumption
of the wrapper inside `try`, with the catch block on a thrown error.  In
the streamed branch each chunk is written as one SSE frame as it arrives;
in the unstreamed branch the chunks are only accumulated and a single JSON
body is written at the end, so a failure there has written nothing. -/
def part000Handle (stream : Bool) (run : WrapperRun) : ResState :=
  let r := ResState.init.writeHead 200
  if stream then
    match run with
    | .ok chunks =>
        ((chunks.foldl (fun s c => s.write (WriteEvent.sseFrame c)) r)).endResponse
    | .failAfter chunks e =>
        part000Catch e (chunks.foldl (fun s c => s.write (WriteEvent.sseFrame c)) r)
  else
    match run with
    | .ok chunks =>
        ((r.write (WriteEvent.jsonBody (serverCompleteResponse chunks)))).endResponse
    | .failAfter _ e => part000Catch e r

/-- The whole part_000 `/v1/chat/completions` handler: validation phase,
then — only on acceptance — the response segment above, driven by the
accepted `stream` flag and the wrapper's run.  A rejection is answered on a
fresh response via `res.status(...).send(...)`. -/
def part000Handler (req : ChatRequestBody) (authToken : Option String)
    (extractCreds : Option String → Except String AwsCreds)
    (run : WrapperRun) : ResState :=
  match part000Validate req authToken extractCreds with
  | .reject s m => ResState.init.statusSend s m
  | .accept ps => part000Handle ps.stream run

/-! ## Helper lemmas -/

/-- Looking a key up past an association-list segment none of whose keys
match it. -/
lemma lookup_append_fresh {β : Type} (k : String) (l₁ l₂ : List (String × β))
    (h : l₁.all (fun kv => kv.1 != k) = true) : (l₁ ++ l₂).lookup k = l₂.lookup k := by
  induction l₁ with
  | nil => rfl
  | cons kv t ih =>
      simp only [List.all_cons, Bool.and_eq_true, bne_iff_ne, ne_eq] at h
      have hk : (k == kv.1) = false := beq_false_of_ne (fun e => h.1 e.symm)
      simp only [List.cons_append, List.lookup, hk]
      exact ih (by simpa only [List.all_eq_true, bne_iff_ne, ne_eq] using h.2)

/-- No registered descriptor's `max_tokens_param_name` collides with the
other keys of the body `buildRequest` assembles. -/
lemma registry_param_name_fresh :
    (bedrock_models.all (fun d =>
      d.special_request_schema.all (fun kv => kv.1 != d.max_tokens_param_name)
      && d.max_tokens_param_name != "system"
      && d.max_tokens_param_name != "messages"
      && d.max_tokens_param_name != "prompt")) = true := by decide

/-- The separate system field never carries the token-limit key. -/
lemma systemFields_fresh (d : ModelDescriptor) (ms : List ChatMessage)
    (h : d.max_tokens_param_name ≠ "system") :
    (systemFields d ms).all (fun kv => kv.1 != d.max_tokens_param_name) = true := by
  unfold systemFields
  cases d.system_as_separate_field with
  | false => rfl
  | true =>
      simp only [if_true]
      cases ms.find? (fun m => m.role == Role.system) with
      | none => rfl
      | some m =>
          simp [bne_iff_ne]
          exact fun e => h e.symm

/-- `buildRequest` always carries the clamped token limit under the
descriptor's `max_tokens_param_name`, for registered descriptors. -/
lemma lookup_buildRequest (d : ModelDescriptor) (hd : d ∈ bedrock_models)
    (ms : List ChatMessage) (mt : Nat) :
    (buildRequest d ms mt).lookup d.max_tokens_param_name
      = some (JVal.num ((min mt d.max_supported_response_tokens : Nat) : Int)) := by
  have hfresh := List.all_eq_true.mp registry_param_name_fresh d hd
  simp only [Bool.and_eq_true, bne_iff_ne, ne_eq] at hfresh
  obtain ⟨⟨⟨hschema, hsys⟩, hmsgs⟩, hprompt⟩ := hfresh
  unfold buildRequest
  cases hapi : d.messages_api with
  | true =>
      simp only [if_true]
      rw [List.append_assoc]
      rw [lookup_append_fresh _ _ _ hschema]
      rw [lookup_append_fresh _ _ _ (systemFields_fresh d ms hsys)]
      simp only [List.lookup, beq_false_of_ne hmsgs, beq_self_eq_true]
  | false =>
      simp only [Bool.false_eq_true, if_false]
      simp only [List.lookup, beq_false_of_ne hprompt, beq_self_eq_true]

/-- The flattening loop past the first message is the plain concatenation
of the per-message blocks. -/
lemma flattenLoop_false (d : ModelDescriptor) (ms : List ChatMessage) :
    flattenLoop d false ms = concatStrings (ms.map (renderMessage d)) := by
  induction ms with
  | nil => rfl
  | cons m t ih =>
      show renderMessage d m ++ flattenLoop d false t
        = renderMessage d m ++ concatStrings (t.map (renderMessage d))
      rw [ih]

/-- `+=`-style left folding of string appends equals the plain ordered
concatenation. -/
lemma foldl_append_concat (l : List String) (s : String) :
    l.foldl (fun acc d => acc ++ d) s = s ++ concatStrings l := by
  induction l generalizing s with
  | nil => simp [concatStrings]
  | cons a t ih =>
      simp only [List.foldl_cons, concatStrings, List.foldr_cons, ih]
      rw [String.append_assoc]

/-- Extracting `choices[0].delta.content` from each streamed frame recovers
the chunks, in order. -/
lemma stream_writes_extract (model : String) (chunks : List String) :
    (serverStreamWrites model chunks).map (fun f => extract deltaContentPath f)
      = chunks.map Except.ok := by
  induction chunks with
  | nil => rfl
  | cons c t ih =>
      show extract deltaContentPath (serverStreamFrame model c)
          :: (serverStreamWrites model t).map (fun f => extract deltaContentPath f)
        = Except.ok c :: t.map Except.ok
      rw [ih]
      rfl

lemma foldl_sse_body (chunks : List String) (r : ResState) :
    (chunks.foldl (fun s c => s.write (WriteEvent.sseFrame c)) r).body
      = r.body ++ chunks.map WriteEvent.sseFrame := by
  induction chunks generalizing r with
  | nil => simp
  | cons c t ih =>
      rw [List.foldl_cons, ih]
      simp [ResState.write]

lemma foldl_sse_statusCode (chunks : List String) (r : ResState) :
    (chunks.foldl (fun s c => s.write (WriteEvent.sseFrame c)) r).statusCode = r.statusCode := by
  induction chunks generalizing r with
  | nil => rfl
  | cons c t ih =>
      rw [List.foldl_cons, ih]
      rfl

lemma foldl_sse_ended (chunks : List String) (r : ResState) :
    (chunks.foldl (fun s c => s.write (WriteEvent.sseFrame c)) r).ended = r.ended := by
  induction chunks generalizing r with
  | nil => rfl
  | cons c t ih =>
      rw [List.foldl_cons, ih]
      rfl

lemma foldl_sse_headersSent (chunks : List String) (r : ResState) (h : r.headersSent = true) :
    (chunks.foldl (fun s c => s.write (WriteEvent.sseFrame c)) r).headersSent = true := by
  induction chunks generalizing r with
  | nil => exact h
  | cons c t ih => exact ih _ rfl

/-- When the headers have been flushed, the catch block of part_000 leaves
the response untouched (both its branches are guarded by
`!res.headersSent`). -/
lemma part000Catch_sent (e : String) (r : ResState) (h : r.headersSent = true) :
    part000Catch e r = r := by
  unfold part000Catch
  rw [h]
  simp

lemma part000Handle_stream_ok (chunks : List String) :
    part000Handle true (.ok chunks)
      = ((chunks.foldl (fun s c => s.write (WriteEvent.sseFrame c))
          (ResState.init.writeHead 200))).endResponse := rfl

lemma part000Handle_stream_fail (chunks : List String) (e : String) :
    part000Handle true (.failAfter chunks e)
      = part000Catch e (chunks.foldl (fun s c => s.write (WriteEvent.sseFrame c))
          (ResState.init.writeHead 200)) := rfl

lemma part000Handle_nostream_fail (chunks : List String) (e : String) :
    part000Handle false (.failAfter chunks e)
      = part000Catch e (ResState.init.writeHead 200) := rfl

lemma all_not_isError_sse (chunks : List String) :
    ((chunks.map WriteEvent.sseFrame).all (fun e => !e.isError)) = true := by
  induction chunks with
  | nil => rfl
  | cons c t ih =>
      rw [List.map_cons, List.all_cons, ih]
      rfl

/-- The full response state after a streamed run that fails having yielded
`chunks`: exactly the frames already written, status 200, not ended. -/
lemma part000Handle_stream_fail_state (chunks : List String) (e : String) :
    part000Handle true (.failAfter chunks e)
      = { statusCode := 200, headersSent := true,
          body := chunks.map WriteEvent.sseFrame, ended := false } := by
  rw [part000Handle_stream_fail,
      part000Catch_sent _ _ (foldl_sse_headersSent chunks (ResState.init.writeHead 200) rfl)]
  have hb := foldl_sse_body chunks (ResState.init.writeHead 200)
  have hs := foldl_sse_statusCode chunks (ResState.init.writeHead 200)
  have he := foldl_sse_ended chunks (ResState.init.writeHead 200)
  have hh := foldl_sse_headersSent chunks (ResState.init.writeHead 200) rfl
  cases hstate : chunks.foldl (fun s c => s.write (WriteEvent.sseFrame c))
      (ResState.init.writeHead 200)
  rw [hstate] at hb hs he hh
  simp_all [ResState.init, ResState.writeHead]

/-- Whatever the wrapper does, the post-validation segment of part_000
answers 200 with flushed headers and never writes an error text. -/
lemma part000Handle_facts (stream : Bool) (run : WrapperRun) :
    (part000Handle stream run).statusCode = 200
    ∧ (part000Handle stream run).headersSent = true
    ∧ ((part000Handle stream run).body.all (fun e => !e.isError)) = true := by
  cases stream with
  | true =>
      cases run with
      | ok chunks =>
          rw [part000Handle_stream_ok]
          refine ⟨foldl_sse_statusCode chunks (ResState.init.writeHead 200),
                  foldl_sse_headersSent chunks (ResState.init.writeHead 200) rfl, ?_⟩
          show ((chunks.foldl (fun s c => s.write (WriteEvent.sseFrame c))
              (ResState.init.writeHead 200)).body.all (fun e => !e.isError)) = true
          rw [foldl_sse_body]
          exact all_not_isError_sse chunks
      | failAfter chunks e =>
          rw [part000Handle_stream_fail_state]
          exact ⟨rfl, rfl, all_not_isError_sse chunks⟩
  | false =>
      cases run with
      | ok chunks => exact ⟨rfl, rfl, rfl⟩
      | failAfter chunks e =>
          rw [part000Handle_nostream_fail, part000Catch_sent _ _ rfl]
          exact ⟨rfl, rfl, rfl⟩

/-! ## The claims -/

/-- C1: for every registered descriptor and every request, when the
caller's `maxTokens` exceeds the descriptor's
`max_supported_response_tokens` the built request body carries the
descriptor's limit under its `max_tokens_param_name`; at or below the
limit, the requested value is emitted unchanged. -/
theorem token_limit_clamped (d : ModelDescriptor) (hd : d ∈ bedrock_models)
    (ms : List ChatMessage) (mt : Nat) :
    (d.max_supported_response_tokens < mt →
      (buildRequest d ms mt).lookup d.max_tokens_param_name
        = some (JVal.num (d.max_supported_response_tokens : Int)))
    ∧ (mt ≤ d.max_supported_response_tokens →
      (buildRequest d ms mt).lookup d.max_tokens_param_name
        = some (JVal.num (mt : Int))) := by
  have hlook := lookup_buildRequest d hd ms mt
  constructor
  · intro hlt
    rw [hlook, Nat.min_eq_right (Nat.le_of_lt hlt)]
  · intro hle
    rw [hlook, Nat.min_eq_left hle]

/-- Witness for C1 at the first registered descriptor (limit 8192) with a
request for 9000 tokens: the emitted value is the limit. -/
theorem token_limit_clamped_witness :
    (bedrock_models.get ⟨0, by decide⟩).max_supported_response_tokens < 9000
    ∧ (buildRequest (bedrock_models.get ⟨0, by decide⟩) [] 9000).lookup
        (bedrock_models.get ⟨0, by decide⟩).max_tokens_param_name
      = some (JVal.num ((bedrock_models.get ⟨0, by decide⟩).max_supported_response_tokens : Int)) :=
  ⟨by decide, (token_limit_clamped (bedrock_models.get ⟨0, by decide⟩)
      (List.get_mem _ _ _) [] 9000).1 (by decide)⟩

/-- C2: for a non-empty message sequence and a `messages_api: false`
descriptor, the built request's prompt is exactly the
`beginOfSequenceMarker` once, followed for each message in input order by
the role header (iff `display_role_names`) and the role's message markers
around the content, with nothing appended after the last message. -/
theorem flattened_prompt_structure (d : ModelDescriptor) (ms : List ChatMessage)
    (hapi : d.messages_api = false) (hne : ms ≠ []) (mt : Nat) :
    (buildRequest d ms mt).lookup "prompt" = some (JVal.str (specFlattened d ms)) := by
  unfold buildRequest
  rw [hapi]
  simp only [Bool.false_eq_true, if_false, List.lookup, beq_self_eq_true]
  cases ms with
  | nil => exact absurd rfl hne
  | cons m t =>
      show some (JVal.str (flattenPrompt d (m :: t))) = _
      unfold flattenPrompt flattenLoop
      rw [flattenLoop_false]
      simp only [specFlattened, if_true, renderMessage, List.map_cons, concatStrings,
                 List.foldr_cons]
      rw [String.append_assoc]
      rfl

/-- Witness for C2 at the registered `Mistral-7b` descriptor with the spec
§8 scenario messages. -/
theorem flattened_prompt_structure_witness :
    (bedrock_models.get ⟨14, by decide⟩).messages_api = false
    ∧ (buildRequest (bedrock_models.get ⟨14, by decide⟩)
        [{ role := Role.system, content := "Be terse" }, { role := Role.user, content := "Hi" }]
        100).lookup "prompt"
      = some (JVal.str (specFlattened (bedrock_models.get ⟨14, by decide⟩)
          [{ role := Role.system, content := "Be terse" },
           { role := Role.user, content := "Hi" }]))
    ∧ specFlattened (bedrock_models.get ⟨14, by decide⟩)
        [{ role := Role.system, content := "Be terse" }, { role := Role.user, content := "Hi" }]
      = "<s>Be terse[INST]Hi[/INST]" :=
  ⟨by decide,
   flattened_prompt_structure (bedrock_models.get ⟨14, by decide⟩)
     [{ role := Role.system, content := "Be terse" }, { role := Role.user, content := "Hi" }]
     (by decide) (by decide) 100,
   by decide⟩

/-- C3: the streaming decoder emits exactly one chunk per event on which
extraction succeeds, in event order, and silently skips every event on
which extraction fails; on the scenario events with `streamChunkPath`
`generation` it yields exactly `["Hel", "lo"]`. -/
theorem decode_stream_skips_extract_errors :
    (∀ (p : Path) (events : List JVal),
        decodeStream p events = events.filterMap (fun e => (extract p e).toOption))
    ∧ decodeStream (parsePath "generation") scenarioEvents = ["Hel", "lo"] := by
  constructor
  · intro p events
    induction events with
    | nil => rfl
    | cons e rest ih =>
        simp only [decodeStream, List.filterMap_cons]
        cases hx : extract p e <;> simp [hx, ih, Except.toOption]
  · decide

/-- C4: the streaming handler of server.js writes one SSE frame per wrapper
chunk, in yield order, whose `choices[0].delta.content` equals that chunk,
and the ordered concatenation of the chunks equals the
`choices[0].message.content` string of the non-streaming handler's response
for the same wrapper output sequence. -/
theorem stream_frames_match_aggregate (model : String) (messages : List ChatMessage)
    (chunks : List String) :
    (serverStreamWrites model chunks).map (fun f => extract deltaContentPath f)
      = chunks.map Except.ok
    ∧ extract messageContentPath (serverNonStreamBody model messages chunks)
      = Except.ok (serverCompleteResponse chunks)
    ∧ concatStrings chunks = serverCompleteResponse chunks := by
  refine ⟨stream_writes_extract model chunks, rfl, ?_⟩
  unfold serverCompleteResponse
  rw [foldl_append_concat]
  rfl

/-- C5 counterexample: the registered descriptor `Llama-3-2-1b` defines no
`response_nonchunk_element` (fullResponsePath) at all, so not every
registry entry carries both selectors. -/
theorem llama_lacks_full_response_path :
    ((bedrock_models.find? (fun d => d.modelName == "Llama-3-2-1b")).map
      (fun d => d.response_nonchunk_element.isNone)) = some true := by decide

/-- C5 (amended): every registered descriptor defines a non-empty
`response_chunk_element` (streamChunkPath), but a `response_nonchunk_element`
(fullResponsePath) is present exactly on the `messages_api` (Claude)
descriptors: five entries carry it and the other twelve (the Llama and
Mistral entries) omit it. -/
theorem registry_response_path_coverage :
    (bedrock_models.all (fun d => !(parsePath d.response_chunk_element).isEmpty)) = true
    ∧ (bedrock_models.all (fun d =>
        d.response_nonchunk_element.isSome == d.messages_api)) = true
    ∧ (bedrock_models.filter (fun d => d.response_nonchunk_element.isSome)).length = 5
    ∧ (bedrock_models.filter (fun d => d.response_nonchunk_element.isNone)).length = 12 :=
  ⟨by decide, by decide, by decide, by decide⟩

/-- C6: the model registry is uniquely keyed by `modelName` — no two
entries share a name.  (The registry is a single immutable constant of the
embedding, mirroring the `export const` list that no statement under `src/`
reassigns or mutates.) -/
theorem registry_names_nodup : (bedrock_models.map (fun d => d.modelName)).Nodup := by decide

/-- C7: a request whose messages array is empty or absent is rejected by
both handlers with HTTP 400 and the message `Messages array is empty`,
without invoking the backend wrapper. -/
theorem empty_messages_rejected (req : ChatRequestBody) (tok1 tok2 : Option String)
    (ex1 : String → Except String AwsCreds) (ex2 : Option String → Except String AwsCreds)
    (h : req.messages.getD [] = []) :
    serverValidate req tok1 ex1 = .reject 400 "Messages array is empty"
    ∧ part000Validate req tok2 ex2 = .reject 400 "Messages array is empty"
    ∧ (serverValidate req tok1 ex1).invokesWrapper = false
    ∧ (part000Validate req tok2 ex2).invokesWrapper = false := by
  have h1 : serverValidate req tok1 ex1 = .reject 400 "Messages array is empty" := by
    unfold serverValidate
    rw [h]
    rfl
  have h2 : part000Validate req tok2 ex2 = .reject 400 "Messages array is empty" := by
    unfold part000Validate
    rw [h]
    rfl
  refine ⟨h1, h2, ?_, ?_⟩
  · rw [h1]
    rfl
  · rw [h2]
    rfl

/-- Witness for C7 at a request with the messages key absent. -/
theorem empty_messages_rejected_witness :
    ({ messages := none, model := none, max_tokens := none,
       stream := none } : ChatRequestBody).messages.getD [] = []
    ∧ serverValidate { messages := none, model := none, max_tokens := none, stream := none }
        none (fun _ => Except.error "bad") = .reject 400 "Messages array is empty"
    ∧ part000Validate { messages := none, model := none, max_tokens := none, stream := none }
        none (fun _ => Except.error "bad") = .reject 400 "Messages array is empty" := by
  have h := empty_messages_rejected
    { messages := none, model := none, max_tokens := none, stream := none }
    none none (fun _ => Except.error "bad") (fun _ => Except.error "bad") rfl
  exact ⟨rfl, h.1, h.2.1⟩

/-- C8 counterexample: a streamed part_000 request that fails after one
yielded chunk leaves exactly that one SSE frame as the whole body — no
error marker is appended and the response is not even ended, so the failure
is not reported as a terminal event on the stream. -/
theorem stream_failure_no_terminal_marker :
    (part000Handle true (.failAfter ["Hel"] "SomeError")).body = [WriteEvent.sseFrame "Hel"]
    ∧ (part000Handle true (.failAfter ["Hel"] "SomeError")).ended = false
    ∧ ((part000Handle true (.failAfter ["Hel"] "SomeError")).body.all
        (fun e => !e.isError)) = true := by decide

/-- C8 (amended): for every streaming request failing after `k` chunks, the
`k` SSE frames already written are unchanged — the final body is exactly
those frames in order — but no terminal error event is appended: the
`!res.headersSent` guards skip both catch branches, and the handler leaves
the stream without an error marker (and without ending it). -/
theorem stream_failure_preserves_frames (chunks : List String) (errName : String) :
    (part000Handle true (.failAfter chunks errName)).body = chunks.map WriteEvent.sseFrame
    ∧ (part000Handle true (.failAfter chunks errName)).statusCode = 200
    ∧ (part000Handle true (.failAfter chunks errName)).ended = false := by
  rw [part000Handle_stream_fail_state]
  exact ⟨rfl, rfl, rfl⟩

/-- C9: a request that omits `model` gets the server.js default
`claude-3-5-sonnet`, which matches no registry entry under exact
case-sensitive comparison, while `Claude-3-5-Sonnet` — the same name up to
ASCII case — is registered. -/
theorem default_model_unregistered (req : ChatRequestBody) (h : req.model = none) :
    serverModel req = "claude-3-5-sonnet"
    ∧ (bedrock_models.find? (fun d => d.modelName == serverModel req)).isNone = true
    ∧ (bedrock_models.find? (fun d => d.modelName == "Claude-3-5-Sonnet")).isSome = true
    ∧ lowerString "Claude-3-5-Sonnet" = serverModel req := by
  have hm : serverModel req = "claude-3-5-sonnet" := by
    unfold serverModel
    rw [h]
    rfl
  rw [hm]
  exact ⟨rfl, by decide, by decide, by decide⟩

/-- Witness for C9 at a request with the model key absent. -/
theorem default_model_unregistered_witness :
    serverModel { messages := none, model := none, max_tokens := none, stream := none }
      = "claude-3-5-sonnet"
    ∧ (bedrock_models.find? (fun d => d.modelName == serverModel
        { messages := none, model := none, max_tokens := none, stream := none })).isNone
      = true :=
  ⟨(default_model_unregistered
      { messages := none, model := none, max_tokens := none, stream := none } rfl).1,
   (default_model_unregistered
      { messages := none, model := none, max_tokens := none, stream := none } rfl).2.1⟩

/-- C10: in the part_000 handler the 200 status line and event-stream
headers are written before the wrapper is invoked in both branches, so for
every request that passes validation the catch block runs with
`headersSent` already true, its guarded 429/500 branches do nothing, and
the client-observed status is 200 regardless of the backend outcome. -/
theorem post_validation_status_always_200 (req : ChatRequestBody) (tok : Option String)
    (ex : Option String → Except String AwsCreds) (ps : BedrockParams) (run : WrapperRun)
    (h : part000Validate req tok ex = .accept ps) :
    (part000Handler req tok ex run).statusCode = 200
    ∧ (part000Handler req tok ex run).headersSent = true
    ∧ ((part000Handler req tok ex run).body.all (fun e => !e.isError)) = true
    ∧ (∀ (e : String) (r : ResState),
        part000Catch e { r with headersSent := true } = { r with headersSent := true }) := by
  have hh : part000Handler req tok ex run = part000Handle ps.stream run := by
    unfold part000Handler
    rw [h]
  rw [hh]
  have hf := part000Handle_facts ps.stream run
  exact ⟨hf.1, hf.2.1, hf.2.2, fun e r => part000Catch_sent e _ rfl⟩

/-- Witness for C10: a validated request whose wrapper throws a
`ThrottlingException` after one chunk still yields a 200 response with no
error write. -/
theorem post_validation_status_always_200_witness :
    part000Validate
        { messages := some [{ role := Role.user, content := "Hi" }], model := none,
          max_tokens := none, stream := none }
        none (fun _ => Except.ok { region := "r", accessKeyId := "k", secretAccessKey := "s" })
      = Validation.accept
          { messages := [{ role := Role.user, content := "Hi" }], model := "Llama-3-8b",
            max_tokens := 800, stream := true }
    ∧ (part000Handler
        { messages := some [{ role := Role.user, content := "Hi" }], model := none,
          max_tokens := none, stream := none }
        none (fun _ => Except.ok { region := "r", accessKeyId := "k", secretAccessKey := "s" })
        (.failAfter ["Hel"] "ThrottlingException")).statusCode = 200 := by
  have h : part000Validate
      { messages := some [{ role := Role.user, content := "Hi" }], model := none,
        max_tokens := none, stream := none }
      none (fun _ => Except.ok { region := "r", accessKeyId := "k", secretAccessKey := "s" })
    = Validation.accept
        { messages := [{ role := Role.user, content := "Hi" }], model := "Llama-3-8b",
          max_tokens := 800, stream := true } := rfl
  exact ⟨h, (post_validation_status_always_200 _ _ _ _
    (.failAfter ["Hel"] "ThrottlingException") h).1⟩

end BedrockProxy
